import Mathlib

/-!
Verification of the jarvizbot expense-dashboard pipeline
(`src/dashboard.py` and `src/dashboard1.py`).

Shallow embedding conventions:
* A transaction record (one row of the pandas DataFrame produced by
  `load_data`) is a `Record`.  Timestamps are minutes since an epoch,
  `1440` minutes to a calendar day; `pd.to_datetime(..., errors="coerce")`
  yields `Option Nat` (`none` = `NaT`).
* `amount` is a signed exact number (`Int`), abstracting the numeric
  `amount` column.
* Pandas `groupby` sorts its group keys ascending (modelled with
  `List.insertionSort`).  `sort_values` with its default
  `kind="quicksort"` is documented by pandas as *not* stable, so it
  guarantees only an ordering by the named column: it is modelled
  relationally by `sortValuesAmountDesc` (any amount-descending
  permutation of the input is an admissible output), with `summary` one
  deterministic admissible realization used by the order-independent
  theorems.
-/

namespace Jarviz

/-- One normalized transaction row, as produced by `load_data`
(`SELECT * FROM transactions` followed by `pd.to_datetime` on `date`).
`date = none` models an unparseable date coerced to `NaT`. -/
structure Record where
  id : Nat
  category : String
  amount : Int
  date : Option Nat
  description : String
deriving DecidableEq

/-- `pd.to_datetime(date_from)` on a calendar date gives the midnight
timestamp of that day (dashboard.py line 160, dashboard1.py line 137). -/
def toTimestamp (day : Nat) : Nat := day * 1440

/-- Calendar-day part of a timestamp (`.dt.date`, dashboard.py line 177). -/
def calendarDay (ts : Nat) : Nat := ts / 1440

/-- The date-range predicate of dashboard.py line 160 / dashboard1.py
line 137: `(filtered['date'] >= pd.to_datetime(date_from)) &
(filtered['date'] <= pd.to_datetime(date_to))`.  A `NaT` date compares
false on both sides in pandas, so `none` is rejected. -/
def dateInRange (dateFrom dateTo : Nat) (d : Option Nat) : Bool :=
  match d with
  | some ts => decide (toTimestamp dateFrom ≤ ts) && decide (ts ≤ toTimestamp dateTo)
  | none => false

/-- The filtered view of dashboard.py lines 159-160 / dashboard1.py lines
136-137: `df[df['category'].isin(categories)]` followed by the date-range
mask. -/
def filterView (df : List Record) (cats : List String) (dateFrom dateTo : Nat) :
    List Record :=
  (df.filter (fun r => cats.contains r.category)).filter
    (fun r => dateInRange dateFrom dateTo r.date)

end Jarviz

namespace Jarviz

/-- **C1** — Inclusion rule of the filtered view: a record is in
`filterView df C dateFrom dateTo` iff it is a row of `df`, its category is
in `C`, and its date is non-null and lies between the (midnight) timestamps
of `dateFrom` and `dateTo`.  In particular every output record's category
is in `C` and a null-date record never appears. -/
theorem C1_filter_inclusion (df : List Record) (cats : List String)
    (dateFrom dateTo : Nat) (r : Record) :
    r ∈ filterView df cats dateFrom dateTo ↔
      r ∈ df ∧ cats.contains r.category = true ∧
        ∃ d, r.date = some d ∧ toTimestamp dateFrom ≤ d ∧ d ≤ toTimestamp dateTo := by
  unfold filterView
  rw [List.mem_filter, List.mem_filter]
  constructor
  · rintro ⟨⟨hdf, hcat⟩, hdate⟩
    refine ⟨hdf, hcat, ?_⟩
    unfold dateInRange at hdate
    cases hd : r.date with
    | none => rw [hd] at hdate; simp at hdate
    | some d =>
      rw [hd] at hdate
      simp only [Bool.and_eq_true, decide_eq_true_eq] at hdate
      exact ⟨d, rfl, hdate.1, hdate.2⟩
  · rintro ⟨hdf, hcat, d, hd, h1, h2⟩
    refine ⟨⟨hdf, hcat⟩, ?_⟩
    unfold dateInRange
    rw [hd]
    simp only [Bool.and_eq_true, decide_eq_true_eq]
    exact ⟨h1, h2⟩

/-- **C9** — The date-range filter compares against the *midnight*
timestamps of the selected calendar days (`pd.to_datetime(date_to)` is
midnight of `date_to`).  A record dated on the `dateTo` calendar day with a
nonzero time-of-day (`0 < t < 1440` minutes past midnight) has its calendar
day inside the selected range, yet is excluded from the filtered view. -/
theorem C9_time_of_day_excluded (df : List Record) (cats : List String)
    (dateFrom dateTo : Nat) (r : Record) (t : Nat)
    (hd : r.date = some (toTimestamp dateTo + t)) (ht : 0 < t) (ht' : t < 1440)
    (hrange : dateFrom ≤ dateTo) :
    calendarDay (toTimestamp dateTo + t) = dateTo ∧
      dateFrom ≤ calendarDay (toTimestamp dateTo + t) ∧
      calendarDay (toTimestamp dateTo + t) ≤ dateTo ∧
      r ∉ filterView df cats dateFrom dateTo := by
  have hday : calendarDay (toTimestamp dateTo + t) = dateTo := by
    unfold calendarDay toTimestamp
    omega
  refine ⟨hday, by omega, by omega, ?_⟩
  intro hmem
  rcases (C1_filter_inclusion df cats dateFrom dateTo r).mp hmem with
    ⟨-, -, d, hd', -, h2⟩
  rw [hd] at hd'
  injection hd' with hd''
  unfold toTimestamp at h2 hd''
  omega

/-- Concrete instance of `C9_time_of_day_excluded`: a record dated
10:00 on day 19723 is excluded from the view filtered to
[19720, 19723] even though its calendar day is 19723. -/
theorem C9_witness :
    calendarDay (toTimestamp 19723 + 600) = 19723 ∧
      19720 ≤ calendarDay (toTimestamp 19723 + 600) ∧
      calendarDay (toTimestamp 19723 + 600) ≤ 19723 ∧
      ⟨7, "food", 10, some (toTimestamp 19723 + 600), ""⟩ ∉
        filterView [⟨7, "food", 10, some (toTimestamp 19723 + 600), ""⟩]
          ["food"] 19720 19723 :=
  C9_time_of_day_excluded
    [⟨7, "food", 10, some (toTimestamp 19723 + 600), ""⟩] ["food"]
    19720 19723 ⟨7, "food", 10, some (toTimestamp 19723 + 600), ""⟩ 600
    rfl (by decide) (by decide) (by decide)

/-! ### RefreshCache (`@st.cache_data(ttl=5)` on `load_data`)

The caching layer itself lives in the Streamlit library, not in this
repository; only the decoration (dashboard.py line 103, dashboard1.py
line 95) and the invalidation call `load_data.clear()` (dashboard.py
line 166) are repository code. -/

/-- Modelled from the spec: RefreshCache (§4.3) — the single-slot memo
behind `@st.cache_data(ttl=5)`, which the repository only configures.
It stores the last `(fingerprint, dataset)` pair; a call with the same
fingerprint returns the memoized dataset without touching the data
source, a new fingerprint re-fetches and replaces the slot. -/
structure CacheState where
  slot : Option (Nat × List Record)
deriving DecidableEq

/-- Modelled from the spec: RefreshCache load (§4.3).  Returns the dataset,
the new cache state, and whether the data source was invoked. -/
def refreshLoad (fetch : Unit → List Record) (fp : Nat) (st : CacheState) :
    List Record × CacheState × Bool :=
  match st.slot with
  | some (f, d) =>
      if f = fp then (d, st, false)
      else ((fetch ()), ⟨some (fp, fetch ())⟩, true)
  | none => ((fetch ()), ⟨some (fp, fetch ())⟩, true)

/-- Modelled from the spec: explicit invalidation (`load_data.clear()`),
which drops the memoized entry. -/
def invalidateCache : CacheState := ⟨none⟩

/-- **C2** — Two consecutive loads with equal fingerprints and no
invalidation in between: the second load does not invoke the data source
and returns a dataset identical to the first load's result. -/
theorem C2_cache_hit (fetch1 fetch2 : Unit → List Record) (fp1 fp2 : Nat)
    (st0 : CacheState) (hfp : fp1 = fp2) :
    (refreshLoad fetch2 fp2 (refreshLoad fetch1 fp1 st0).2.1).2.2 = false ∧
      (refreshLoad fetch2 fp2 (refreshLoad fetch1 fp1 st0).2.1).1 =
        (refreshLoad fetch1 fp1 st0).1 := by
  subst hfp
  unfold refreshLoad
  rcases st0 with ⟨slot⟩
  rcases slot with - | ⟨f, d⟩
  · simp
  · by_cases hf : f = fp1 <;> simp [hf]

/-- Concrete instance of `C2_cache_hit` at fingerprint 3 starting from an
empty cache. -/
theorem C2_witness :
    (refreshLoad (fun _ => []) 3 (refreshLoad (fun _ => [⟨1, "food", 10, some 0, ""⟩]) 3 invalidateCache).2.1).2.2 = false ∧
      (refreshLoad (fun _ => []) 3 (refreshLoad (fun _ => [⟨1, "food", 10, some 0, ""⟩]) 3 invalidateCache).2.1).1 =
        (refreshLoad (fun _ => [⟨1, "food", 10, some 0, ""⟩]) 3 invalidateCache).1 :=
  C2_cache_hit (fun _ => [⟨1, "food", 10, some 0, ""⟩]) (fun _ => []) 3 3
    invalidateCache rfl

/-! ### Aggregator: category summary
(dashboard.py line 173 / dashboard1.py line 142)
`filtered.groupby('category')['amount'].sum().reset_index().sort_values('amount', ascending=False)`
`groupby` emits group keys sorted ascending; `sort_values` then reorders
by summed amount descending.  Its default `kind="quicksort"` is
documented as not stable, so the relative order of equal sums is
unspecified: the call's guarantee is captured by the relation
`sortValuesAmountDesc` below. -/

/-- `filtered['amount'].sum()` over a list of records. -/
def amountSum (l : List Record) : Int := (l.map (fun r => r.amount)).sum

@[simp] theorem amountSum_nil : amountSum [] = 0 := rfl

@[simp] theorem amountSum_cons (r : Record) (l : List Record) :
    amountSum (r :: l) = r.amount + amountSum l := by
  simp [amountSum]

/-- Ascending sort on strings (the order `groupby` sorts its keys in). -/
def sortStrings (l : List String) : List String :=
  l.insertionSort (fun a b => a ≤ b)

/-- The distinct categories of a view, ascending — the group keys of
`groupby('category')`. -/
def categoriesOf (view : List Record) : List String :=
  sortStrings (view.map (fun r => r.category)).dedup

/-- The groupby output: one `(category, summed amount)` pair per distinct
category, in ascending category order. -/
def groupedPairs (view : List Record) : List (String × Int) :=
  (categoriesOf view).map
    (fun c => (c, amountSum (view.filter (fun r => decide (r.category = c)))))

/-- The comparison `sort_values('amount', ascending=False)` sorts by. -/
def amountDesc (a b : String × Int) : Prop := b.2 ≤ a.2

instance : DecidableRel amountDesc :=
  fun a b => decidable_of_iff (b.2 ≤ a.2) Iff.rfl

/-- Modelled from the pandas documentation of `sort_values`: with the
default `kind="quicksort"` the sort is *not* stable, so the call
guarantees only that its output is a reordering of the input that is
descending in the named column — any amount-descending permutation is an
admissible output, and the relative order of equal sums is unspecified. -/
def sortValuesAmountDesc (input output : List (String × Int)) : Prop :=
  List.Perm output input ∧ output.Pairwise amountDesc

instance : IsTotal (String × Int) amountDesc :=
  ⟨fun a b => le_total b.2 a.2⟩

instance : IsTrans (String × Int) amountDesc :=
  ⟨fun _ _ _ hab hbc => le_trans hbc hab⟩

/-- The category summary table (dashboard.py line 173 / dashboard1.py
line 142): one deterministic realization of `sortValuesAmountDesc`
applied to the groupby output (here an insertion sort), used by the
theorems that do not depend on the unspecified tie order. -/
def summary (view : List Record) : List (String × Int) :=
  (groupedPairs view).insertionSort amountDesc

/-- The `summary` realization satisfies the guarantee pandas gives for
`sort_values('amount', ascending=False)`. -/
theorem summary_admissible (view : List Record) :
    sortValuesAmountDesc (groupedPairs view) (summary view) :=
  ⟨List.perm_insertionSort _ _, List.sorted_insertionSort _ _⟩

/-- Descending-by-amount with ties broken by category text ascending:
the deterministic order the claim and spec require of the summary. -/
def lexDA (a b : String × Int) : Prop :=
  b.2 < a.2 ∨ (a.2 = b.2 ∧ a.1 < b.1)

instance : DecidableRel lexDA :=
  fun a b =>
    decidable_of_iff (b.2 < a.2 ∨ (a.2 = b.2 ∧ a.1 < b.1)) Iff.rfl

/-- **C3** — The code does not establish the claimed tie-break.  On the
filtered view with two categories "a" and "b" of equal summed amount 5,
the groupby output is `[(a,5),(b,5)]`, and *both* tie orders satisfy the
only guarantee `sort_values('amount', ascending=False)` gives (an
amount-descending permutation, its default quicksort being documented as
unstable) — including the order `[(b,5),(a,5)]`, which violates the
descending-amount-then-category-ascending (`lexDA`) order the claim and
spec §4.6/§9 require deterministically.  The spec fixes the
category-ascending tie-break as the testable contract and calls any
deviation a bug to fix, so the unspecified tie order is a code bug. -/
theorem C3_tie_break_not_guaranteed :
    groupedPairs
        [⟨1, "a", 5, some 144000, ""⟩, ⟨2, "b", 5, some 144000, ""⟩] =
      [("a", 5), ("b", 5)] ∧
    sortValuesAmountDesc [("a", 5), ("b", 5)] [("a", 5), ("b", 5)] ∧
    sortValuesAmountDesc [("a", 5), ("b", 5)] [("b", 5), ("a", 5)] ∧
    ¬ ([("b", 5), ("a", 5)] : List (String × Int)).Pairwise lexDA := by
  have hab : ("a" : String) ≤ "b" := by
    rw [String.le_iff_toList_le]
    decide
  have hnba : ¬ ("b" : String) < "a" := by
    rw [String.lt_iff_toList_lt]
    decide
  refine ⟨?_, ⟨by decide, by decide⟩, ⟨by decide, by decide⟩, ?_⟩
  · unfold groupedPairs categoriesOf sortStrings
    have hd : (([⟨1, "a", 5, some 144000, ""⟩,
        ⟨2, "b", 5, some 144000, ""⟩] : List Record).map
          (fun r => r.category)).dedup = ["a", "b"] := by decide
    rw [hd]
    have hsort :
        (["a", "b"] : List String).insertionSort (fun a b => a ≤ b) =
          ["a", "b"] := by
      simp [List.insertionSort, List.orderedInsert, hab]
    rw [hsort]
    decide
  · intro h
    rcases List.pairwise_cons.mp h with ⟨hpair, -⟩
    have hba := hpair ("a", 5) (List.mem_singleton.mpr rfl)
    rcases hba with h1 | ⟨-, h2⟩
    · exact absurd h1 (by decide)
    · exact hnba h2

theorem categoriesOf_nodup (view : List Record) :
    (categoriesOf view).Nodup :=
  ((List.perm_insertionSort _ _).nodup_iff).mpr
    (List.nodup_dedup _)

theorem mem_categoriesOf (view : List Record) (r : Record) (hr : r ∈ view) :
    r.category ∈ categoriesOf view := by
  unfold categoriesOf sortStrings
  refine (List.perm_insertionSort _ _).mem_iff.mpr ?_
  exact List.mem_dedup.mpr (List.mem_map_of_mem _ hr)

theorem amountSum_filter_not (p : Record → Bool) (l : List Record) :
    amountSum (l.filter p) + amountSum (l.filter (fun r => !(p r))) =
      amountSum l := by
  induction l with
  | nil => rfl
  | cons x l ih =>
    cases hp : p x <;> simp [List.filter_cons, hp] <;> omega

theorem sum_over_keys : ∀ (ks : List String) (l : List Record), ks.Nodup →
    (∀ r ∈ l, r.category ∈ ks) →
    (ks.map (fun c => amountSum (l.filter (fun r => decide (r.category = c))))).sum =
      amountSum l := by
  intro ks
  induction ks with
  | nil =>
    intro l _ hcov
    have hl : l = [] :=
      List.eq_nil_iff_forall_not_mem.mpr (fun r hr => by simpa using hcov r hr)
    subst hl; rfl
  | cons k ks ih =>
    intro l hnd hcov
    have hk : k ∉ ks := (List.nodup_cons.mp hnd).1
    have hnd' : ks.Nodup := (List.nodup_cons.mp hnd).2
    rw [List.map_cons, List.sum_cons]
    have hmap : ks.map
          (fun c => amountSum (l.filter (fun r => decide (r.category = c)))) =
        ks.map (fun c => amountSum
          ((l.filter (fun r => !(decide (r.category = k)))).filter
            (fun r => decide (r.category = c)))) := by
      refine List.map_congr_left ?_
      intro c hc
      have hck : c ≠ k := fun h => hk (h ▸ hc)
      rw [List.filter_filter]
      congr 1
      refine List.filter_congr ?_
      intro r _
      by_cases hrc : r.category = c
      · simp [hrc, hck]
      · simp [hrc]
    rw [hmap,
      ih (l.filter (fun r => !(decide (r.category = k)))) hnd' ?_]
    · exact amountSum_filter_not (fun r => decide (r.category = k)) l
    · intro r hr
      rw [List.mem_filter] at hr
      rcases List.mem_cons.mp (hcov r hr.1) with h | h
      · exfalso
        have := hr.2
        simp [h] at this
      · exact h

/-- **C6** — Conservation law: the summed group totals of the category
summary equal the sum of `amount` over the whole filtered view. -/
theorem C6_conservation (view : List Record) :
    ((summary view).map (fun p => p.2)).sum = amountSum view := by
  have hperm :
      List.Perm ((summary view).map (fun p : String × Int => p.2))
        ((groupedPairs view).map (fun p : String × Int => p.2)) :=
    (List.perm_insertionSort amountDesc (groupedPairs view)).map _
  rw [hperm.sum_eq]
  unfold groupedPairs
  rw [List.map_map]
  exact sum_over_keys (categoriesOf view) view (categoriesOf_nodup view)
    (fun r hr => mem_categoriesOf view r hr)

/-! ### Aggregator: daily time series
dashboard.py line 177:
`filtered.groupby(filtered['date'].dt.date)['amount'].sum()` — key is the
calendar-day part of the timestamp.
dashboard1.py line 146:
`filtered.groupby('date')['amount'].sum()` — key is the full timestamp.
`groupby` drops rows whose key is null (`NaT`) and emits keys sorted
ascending. -/

/-- Ascending sort on naturals (the order `groupby` sorts its keys in). -/
def sortNats (l : List Nat) : List Nat :=
  l.insertionSort (fun a b => a ≤ b)

/-- A `groupby(dayOf(date))['amount'].sum()` series: one
`(key, summed amount)` pair per distinct non-null key, keys ascending. -/
def dailySeries (dayOf : Nat → Nat) (view : List Record) : List (Nat × Int) :=
  (sortNats ((view.filterMap (fun r => r.date)).map dayOf).dedup).map
    (fun k => (k, amountSum (view.filter
      (fun r => decide (r.date.map dayOf = some k)))))

/-- The daily series of dashboard.py line 177 (grouping by `.dt.date`). -/
def dailyDashboard (view : List Record) : List (Nat × Int) :=
  dailySeries calendarDay view

/-- The daily series of dashboard1.py line 146 (grouping by the raw
`date` column, i.e. the full timestamp). -/
def dailyDashboard1 (view : List Record) : List (Nat × Int) :=
  dailySeries (fun ts => ts) view

/-- **C4** — dashboard1.py line 146 groups the "daily" series by the full
timestamp instead of the calendar day.  On a filtered view with two
records on calendar day 100 (midnight and 10:00), dashboard.py produces
the single entry `(day 100, 15)` as the claim states, but dashboard1.py
produces two entries on the same calendar day — contradicting its own
"Time series (daily totals)" label, the spec, and the other variant. -/
theorem C4_daily_bug_eval :
    dailyDashboard
        [⟨1, "food", 10, some 144000, ""⟩, ⟨2, "food", 5, some 144600, ""⟩] =
      [(100, 15)] ∧
    dailyDashboard1
        [⟨1, "food", 10, some 144000, ""⟩, ⟨2, "food", 5, some 144600, ""⟩] =
      [(144000, 10), (144600, 5)] ∧
    (dailyDashboard1
        [⟨1, "food", 10, some 144000, ""⟩, ⟨2, "food", 5, some 144600, ""⟩]).map
        (fun p => calendarDay p.1) = [100, 100] := by
  refine ⟨?_, ?_, ?_⟩ <;> rfl

/-! ### The two dashboard variants (C8)
Both scripts share the filter (lines 159-160 / 136-137) and summary
(line 173 / 142) code verbatim; they differ in the daily-series group key
(see C4) and in the order their queries return rows
(`ORDER BY id DESC` vs `ORDER BY date DESC`), which we model by letting
each variant receive its own permutation of the raw rows. -/

/-- The dashboard.py derived outputs: filtered view, category summary,
daily series keyed by calendar day. -/
def dashboardPipeline (df : List Record) (cats : List String)
    (dateFrom dateTo : Nat) :
    List Record × List (String × Int) × List (Nat × Int) :=
  (filterView df cats dateFrom dateTo,
    summary (filterView df cats dateFrom dateTo),
    dailyDashboard (filterView df cats dateFrom dateTo))

/-- The dashboard1.py derived outputs: identical filter and summary code,
daily series keyed by the full timestamp. -/
def dashboard1Pipeline (df : List Record) (cats : List String)
    (dateFrom dateTo : Nat) :
    List Record × List (String × Int) × List (Nat × Int) :=
  (filterView df cats dateFrom dateTo,
    summary (filterView df cats dateFrom dateTo),
    dailyDashboard1 (filterView df cats dateFrom dateTo))

theorem amountSum_filter_perm (v1 v2 : List Record) (h : List.Perm v1 v2)
    (p : Record → Bool) :
    amountSum (v1.filter p) = amountSum (v2.filter p) := by
  unfold amountSum
  exact ((h.filter p).map (fun r => r.amount)).sum_eq

theorem categoriesOf_perm_eq (v1 v2 : List Record) (h : List.Perm v1 v2) :
    categoriesOf v1 = categoriesOf v2 := by
  unfold categoriesOf sortStrings
  refine List.eq_of_perm_of_sorted ?_
    (List.sorted_insertionSort (fun a b : String => a ≤ b) _)
    (List.sorted_insertionSort (fun a b : String => a ≤ b) _)
  exact ((List.perm_insertionSort (fun a b : String => a ≤ b)
      (v1.map (fun r => r.category)).dedup).trans
    ((h.map (fun r => r.category)).dedup)).trans
    (List.perm_insertionSort (fun a b : String => a ≤ b)
      (v2.map (fun r => r.category)).dedup).symm

theorem summary_perm_eq (v1 v2 : List Record) (h : List.Perm v1 v2) :
    summary v1 = summary v2 := by
  unfold summary groupedPairs
  rw [categoriesOf_perm_eq v1 v2 h]
  congr 1
  refine List.map_congr_left ?_
  intro c _
  rw [amountSum_filter_perm v1 v2 h]

theorem dailySeries_perm_eq (dayOf : Nat → Nat) (v1 v2 : List Record)
    (h : List.Perm v1 v2) :
    dailySeries dayOf v1 = dailySeries dayOf v2 := by
  unfold dailySeries sortNats
  have hkeys :
      ((v1.filterMap (fun r => r.date)).map dayOf).dedup.insertionSort
          (fun a b => a ≤ b) =
        ((v2.filterMap (fun r => r.date)).map dayOf).dedup.insertionSort
          (fun a b => a ≤ b) := by
    refine List.eq_of_perm_of_sorted ?_
      (List.sorted_insertionSort (fun a b : Nat => a ≤ b) _)
      (List.sorted_insertionSort (fun a b : Nat => a ≤ b) _)
    exact ((List.perm_insertionSort (fun a b : Nat => a ≤ b)
        ((v1.filterMap (fun r => r.date)).map dayOf).dedup).trans
      (((h.filterMap (fun r => r.date)).map dayOf).dedup)).trans
      (List.perm_insertionSort (fun a b : Nat => a ≤ b)
        ((v2.filterMap (fun r => r.date)).map dayOf).dedup).symm
  rw [hkeys]
  refine List.map_congr_left ?_
  intro k _
  rw [amountSum_filter_perm v1 v2 h]

theorem dedup_map_of_injective {g : Nat → Nat} (hg : Function.Injective g) :
    ∀ l : List Nat, (l.map g).dedup = l.dedup.map g := by
  intro l
  induction l with
  | nil => rfl
  | cons x l ih =>
    rw [List.map_cons]
    by_cases hx : x ∈ l
    · rw [List.dedup_cons_of_mem hx,
        List.dedup_cons_of_mem (List.mem_map_of_mem g hx), ih]
    · rw [List.dedup_cons_of_not_mem hx,
        List.dedup_cons_of_not_mem
          (fun h => hx ((List.mem_map_of_injective hg).mp h)),
        List.map_cons, ih]

theorem sortNats_map_mul (c : Nat) (l : List Nat) :
    sortNats (l.map (fun k => c * k)) = (sortNats l).map (fun k => c * k) := by
  unfold sortNats
  refine List.eq_of_perm_of_sorted ?_ (List.sorted_insertionSort _ _) ?_
  · exact (List.perm_insertionSort _ _).trans
      ((List.perm_insertionSort (fun a b : Nat => a ≤ b) l).symm.map _)
  · exact List.Pairwise.map _ (fun a b hab => mul_le_mul_left' hab c)
      (List.sorted_insertionSort (fun a b : Nat => a ≤ b) l)

/-- With every date in the view midnight-aligned, dashboard1's
timestamp-keyed series is dashboard's calendar-day series with each day
represented by its midnight timestamp. -/
theorem dailySeries_scale (view : List Record)
    (hmid : ∀ r ∈ view, ∀ d, r.date = some d → d % 1440 = 0) :
    dailyDashboard1 view =
      (dailyDashboard view).map (fun p => (1440 * p.1, p.2)) := by
  unfold dailyDashboard1 dailyDashboard dailySeries
  have hdates : ∀ d ∈ view.filterMap (fun r => r.date), d % 1440 = 0 := by
    intro d hd
    rcases List.mem_filterMap.mp hd with ⟨r, hr, hrd⟩
    exact hmid r hr d hrd
  have hinj : Function.Injective (fun k : Nat => 1440 * k) := by
    intro a b hab
    have hab' : 1440 * a = 1440 * b := hab
    omega
  have hrecon :
      ((view.filterMap (fun r => r.date)).map calendarDay).map
          (fun k => 1440 * k) =
        view.filterMap (fun r => r.date) := by
    rw [List.map_map]
    have hpt : ∀ d ∈ view.filterMap (fun r => r.date),
        ((fun k => 1440 * k) ∘ calendarDay) d = (fun d => d) d := by
      intro d hd
      have := hdates d hd
      unfold calendarDay
      simp only [Function.comp]
      omega
    rw [List.map_congr_left hpt, List.map_id']
  have hkeys :
      sortNats ((view.filterMap (fun r => r.date)).map (fun ts => ts)).dedup =
        (sortNats ((view.filterMap (fun r => r.date)).map calendarDay).dedup).map
          (fun k => 1440 * k) := by
    rw [List.map_id', ← sortNats_map_mul 1440, ← dedup_map_of_injective hinj,
      hrecon]
  rw [hkeys, List.map_map, List.map_map]
  refine List.map_congr_left ?_
  intro k _
  simp only [Function.comp]
  congr 1
  refine congrArg amountSum (List.filter_congr ?_)
  intro r hr
  cases hrd : r.date with
  | none => rfl
  | some d =>
    have hd0 : d % 1440 = 0 := hmid r hr d hrd
    simp only [Option.map_some']
    refine decide_eq_decide.mpr ?_
    unfold calendarDay
    constructor
    · intro h
      injection h with h
      exact congrArg some (by omega)
    · intro h
      injection h with h
      exact congrArg some (by omega)

/-- **C8, counterexample** — On the same raw rows (two "food" records on
calendar day 100, one at midnight, one at 10:00) and the selections
categories = {food}, date range [100, 101], the two variants do *not*
produce identical outputs: the daily series disagree (dashboard.py emits
one entry for day 100, dashboard1.py emits two). -/
theorem C8_counterexample :
    ¬ dashboardPipeline
        [⟨1, "food", 10, some 144000, ""⟩, ⟨2, "food", 5, some 144600, ""⟩]
        ["food"] 100 101 =
      dashboard1Pipeline
        [⟨1, "food", 10, some 144000, ""⟩, ⟨2, "food", 5, some 144600, ""⟩]
        ["food"] 100 101 := by
  decide

/-- **C8, amended** — For the same raw rows (each variant receiving its
own query ordering, hence any permutation), the two variants produce
filtered views that are permutations of each other, *identical* category
summaries, and daily series that agree — each calendar day represented by
its midnight timestamp in dashboard1 — provided every date in the
filtered view is midnight-aligned; a date with a time-of-day component
breaks the daily-series agreement (see the counterexample). -/
theorem C8_amended (dfA dfB : List Record) (cats : List String)
    (dateFrom dateTo : Nat) (hperm : List.Perm dfA dfB)
    (hmid : ∀ r ∈ filterView dfA cats dateFrom dateTo, ∀ d,
      r.date = some d → d % 1440 = 0) :
    List.Perm (dashboardPipeline dfA cats dateFrom dateTo).1
        (dashboard1Pipeline dfB cats dateFrom dateTo).1 ∧
      (dashboardPipeline dfA cats dateFrom dateTo).2.1 =
        (dashboard1Pipeline dfB cats dateFrom dateTo).2.1 ∧
      (dashboard1Pipeline dfB cats dateFrom dateTo).2.2 =
        ((dashboardPipeline dfA cats dateFrom dateTo).2.2).map
          (fun p => (1440 * p.1, p.2)) := by
  have hvp : List.Perm (filterView dfA cats dateFrom dateTo)
      (filterView dfB cats dateFrom dateTo) := by
    unfold filterView
    exact (hperm.filter (fun r => cats.contains r.category)).filter
      (fun r => dateInRange dateFrom dateTo r.date)
  refine ⟨hvp, summary_perm_eq _ _ hvp, ?_⟩
  show dailyDashboard1 (filterView dfB cats dateFrom dateTo) =
    (dailyDashboard (filterView dfA cats dateFrom dateTo)).map
      (fun p => (1440 * p.1, p.2))
  have h1 : dailyDashboard1 (filterView dfB cats dateFrom dateTo) =
      dailyDashboard1 (filterView dfA cats dateFrom dateTo) :=
    dailySeries_perm_eq (fun ts => ts) _ _ hvp.symm
  rw [h1]
  exact dailySeries_scale _ hmid

/-- Concrete instance of `C8_amended`: the raw rows in the two query
orders, both dates midnight-aligned (days 100 and 101). -/
theorem C8_amended_witness :
    List.Perm (dashboardPipeline
        [⟨1, "food", 10, some 144000, ""⟩, ⟨2, "taxi", 5, some 145440, ""⟩]
        ["food", "taxi"] 100 101).1
      (dashboard1Pipeline
        [⟨2, "taxi", 5, some 145440, ""⟩, ⟨1, "food", 10, some 144000, ""⟩]
        ["food", "taxi"] 100 101).1 ∧
    (dashboardPipeline
        [⟨1, "food", 10, some 144000, ""⟩, ⟨2, "taxi", 5, some 145440, ""⟩]
        ["food", "taxi"] 100 101).2.1 =
      (dashboard1Pipeline
        [⟨2, "taxi", 5, some 145440, ""⟩, ⟨1, "food", 10, some 144000, ""⟩]
        ["food", "taxi"] 100 101).2.1 ∧
    (dashboard1Pipeline
        [⟨2, "taxi", 5, some 145440, ""⟩, ⟨1, "food", 10, some 144000, ""⟩]
        ["food", "taxi"] 100 101).2.2 =
      ((dashboardPipeline
        [⟨1, "food", 10, some 144000, ""⟩, ⟨2, "taxi", 5, some 145440, ""⟩]
        ["food", "taxi"] 100 101).2.2).map (fun p => (1440 * p.1, p.2)) :=
  C8_amended
    [⟨1, "food", 10, some 144000, ""⟩, ⟨2, "taxi", 5, some 145440, ""⟩]
    [⟨2, "taxi", 5, some 145440, ""⟩, ⟨1, "food", 10, some 144000, ""⟩]
    ["food", "taxi"] 100 101 (by decide) (by decide)

/-! ### `load_data` error handling (C5)
dashboard.py lines 104-129 / dashboard1.py lines 96-110. -/

/-- A raw row of the `transactions` table, before date normalization. -/
structure RawRow where
  id : Nat
  category : String
  amount : Int
  dateStr : String
  description : String

/-- The normalization inside `load_data` (dashboard.py lines 114-117):
`pd.to_datetime(df['date'], errors="coerce")`.  The pandas date parser is
abstracted as a parameter; a parse failure yields `none` (`NaT`) and the
row is kept. -/
def normalize (parseDate : String → Option Nat) (rows : List RawRow) :
    List Record :=
  rows.map (fun w => ⟨w.id, w.category, w.amount, parseDate w.dateStr,
    w.description⟩)

/-- What a failing `get_db_connection` / `read_sql_query` raises:
`psycopg2.OperationalError`, or any other exception (dashboard.py
lines 119 and 127). -/
inductive DbError where
  | operational (msg : String)
  | other (msg : String)

/-- The `st.error`/`st.info` diagnostics emitted on each failure path
(dashboard.py lines 120-128; dashboard1.py line 109 has only the
`other` branch, which both variants share). -/
def errorReport : DbError → List String
  | DbError.operational msg =>
      if msg.containsSubstr "IPv6".toSubstring ||
          msg.containsSubstr "Cannot assign requested address".toSubstring then
        ["Connection error (IPv6 issue): " ++ msg,
          "Tip: If using Supabase, try using the connection pooler URL instead of the direct connection URL."]
      else
        ["Database connection error: " ++ msg]
  | DbError.other msg => ["Error reading database: " ++ msg]

/-- Result of one `load_data` call: the DataFrame plus the diagnostics
reported to the UI. -/
structure LoadOutcome where
  data : List Record
  errors : List String

/-- dashboard.py lines 104-129 / dashboard1.py lines 96-110: fetch, parse
the date column, and on any exception report it and return an empty
DataFrame.  The `try/except` covers the whole body, so the function is
total: it always returns a `LoadOutcome` instead of propagating the
error. -/
def load_data (parseDate : String → Option Nat)
    (fetch : Except DbError (List RawRow)) : LoadOutcome :=
  match fetch with
  | Except.ok rows => ⟨normalize parseDate rows, []⟩
  | Except.error e => ⟨[], errorReport e⟩

/-- **C5** — Every connection or query failure makes `load_data` return
the empty dataset together with at least one human-readable diagnostic;
being a total function into `LoadOutcome`, no data-access exception
propagates past the pipeline boundary, and the caller degrades to the
uniform "no data" state. -/
theorem C5_failure_degrades (parseDate : String → Option Nat) (e : DbError) :
    (load_data parseDate (Except.error e)).data = [] ∧
      (load_data parseDate (Except.error e)).errors ≠ [] := by
  refine ⟨rfl, ?_⟩
  cases e with
  | operational msg =>
    unfold load_data errorReport
    dsimp only
    split <;> simp
  | other msg => simp [load_data, errorReport]

/-! ### Module-level environment parsing (C10)
dashboard.py line 28 / dashboard1.py line 27:
`PGPORT = int(os.getenv("PGPORT", "5432"))` runs at import time, outside
every `try/except` in the file. -/

/-- Numeric value of a decimal digit character. -/
def charDigit (c : Char) : Nat := c.toNat - 48

/-- Value of a big-endian list of decimal digit characters. -/
def digitsVal (cs : List Char) : Nat :=
  Nat.ofDigits 10 ((cs.map charDigit).reverse)

/-- Leading and trailing spaces, which Python's `int()` tolerates. -/
def stripSpaces (cs : List Char) : List Char :=
  ((cs.dropWhile (fun c => c = ' ')).reverse.dropWhile (fun c => c = ' ')).reverse

/-- Python's `int(s)` for base 10: optional surrounding whitespace,
optional sign, at least one decimal digit; anything else raises
`ValueError` (modelled as `none`). -/
def pyInt (s : String) : Option Int :=
  match stripSpaces s.data with
  | [] => none
  | '+' :: rest =>
      if rest ≠ [] ∧ rest.all (fun c => c.isDigit) then
        some ((digitsVal rest : Nat) : Int)
      else none
  | '-' :: rest =>
      if rest ≠ [] ∧ rest.all (fun c => c.isDigit) then
        some (-((digitsVal rest : Nat) : Int))
      else none
  | cs =>
      if cs.all (fun c => c.isDigit) then some ((digitsVal cs : Nat) : Int)
      else none

/-- The module-level connection parameters (dashboard.py lines 27-32). -/
structure Config where
  pghost : Option String
  pgport : Int
  pgdatabase : Option String
  pguser : Option String
  pgpassword : Option String
  pgsslmode : String

/-- Module initialization: reads the `PG*` environment variables.
`int(os.getenv("PGPORT", "5432"))` is evaluated here, before `load_data`
or any `try/except` exists, so a failed conversion is an uncaught
`ValueError` that aborts the program (modelled as `Except.error`). -/
def moduleInit (env : String → Option String) : Except String Config :=
  match pyInt ((env "PGPORT").getD "5432") with
  | none => Except.error
      ("ValueError: invalid literal for int() with base 10: " ++
        ((env "PGPORT").getD "5432"))
  | some p => Except.ok
      ⟨env "PGHOST", p, env "PGDATABASE", env "PGUSER", env "PGPASSWORD",
        (env "PGSSLMODE").getD "require"⟩

/-- **C10** — With `PGPORT` set to a string `int()` rejects, module
initialization raises an uncaught `ValueError`: no `Config` is produced,
so the pipeline (and its empty-dataset degradation) is never reached and
the program crashes. -/
theorem C10_pgport_crash (env : String → Option String) (s : String)
    (hs : env "PGPORT" = some s) (hbad : pyInt s = none) :
    moduleInit env = Except.error
      ("ValueError: invalid literal for int() with base 10: " ++ s) := by
  unfold moduleInit
  rw [hs]
  simp only [Option.getD_some]
  rw [hbad]

/-- Concrete instance of `C10_pgport_crash`: `PGPORT=abc`. -/
theorem C10_witness :
    moduleInit (fun k => if k = "PGPORT" then some "abc" else none) =
      Except.error
        ("ValueError: invalid literal for int() with base 10: " ++ "abc") :=
  C10_pgport_crash (fun k => if k = "PGPORT" then some "abc" else none)
    "abc" (by decide) (by decide)

/-! ### Exporter (C7)
dashboard.py line 182 / dashboard1.py line 149:
`filtered.to_csv(index=False)` — a header row then one row per record of
the *filtered* view, cells in DataFrame column order.  The delimited text
is modelled structurally as rows of cells (character lists): CSV quoting
makes cell boundaries of the flat text exactly recoverable, so re-parsing
delimited text is reading back the rows and cells. -/

/-- Decimal rendering of a natural number, as `to_csv` prints it. -/
def encodeNat (n : Nat) : List Char :=
  if n = 0 then ['0']
  else ((Nat.digits 10 n).map (fun d => Char.ofNat (48 + d))).reverse

/-- Re-parsing a decimal cell back to a natural number. -/
def decodeNat (cs : List Char) : Option Nat :=
  if cs ≠ [] ∧ cs.all (fun c => c.isDigit) then some (digitsVal cs) else none

/-- Decimal rendering of a signed amount. -/
def encodeInt (n : Int) : List Char :=
  if n < 0 then '-' :: encodeNat n.natAbs else encodeNat n.natAbs

/-- Re-parsing a signed decimal cell. -/
def decodeInt : List Char → Option Int
  | [] => none
  | c :: rest =>
      if c = '-' then (decodeNat rest).map (fun m => -(Int.ofNat m))
      else (decodeNat (c :: rest)).map (fun m => Int.ofNat m)

/-- A null date exports as an empty cell. -/
def dateCell : Option Nat → List Char
  | none => []
  | some d => encodeNat d

/-- One exported data row, in DataFrame column order. -/
def recordRow (r : Record) : List (List Char) :=
  [encodeNat r.id, r.category.data, encodeInt r.amount, dateCell r.date,
    r.description.data]

/-- The exported header row. -/
def csvHeader : List (List Char) :=
  ["id".data, "category".data, "amount".data, "date".data,
    "description".data]

/-- `filtered.to_csv(index=False)`: header plus one row per record. -/
def toDelimited (view : List Record) : List (List (List Char)) :=
  csvHeader :: view.map recordRow

/-- Number of data rows seen when re-parsing the delimited output. -/
def reparsedRowCount (file : List (List (List Char))) : Nat :=
  (file.drop 1).length

/-- The amount column as recovered by re-parsing the delimited output. -/
def reparsedAmounts (file : List (List (List Char))) : List (Option Int) :=
  (file.drop 1).map (fun row => (row[2]?).bind decodeInt)

theorem charDigit_digitChar {d : Nat} (hd : d < 10) :
    charDigit (Char.ofNat (48 + d)) = d := by
  interval_cases d <;> decide

theorem digitChar_isDigit {d : Nat} (hd : d < 10) :
    (Char.ofNat (48 + d)).isDigit = true := by
  interval_cases d <;> decide

theorem encodeNat_ne_nil (n : Nat) : encodeNat n ≠ [] := by
  unfold encodeNat
  split
  · simp
  · simp [Nat.digits_ne_nil_iff_ne_zero, *]

theorem encodeNat_all_digits (n : Nat) :
    (encodeNat n).all (fun c => c.isDigit) = true := by
  unfold encodeNat
  split
  · decide
  · rw [List.all_eq_true]
    intro c hc
    rw [List.mem_reverse, List.mem_map] at hc
    obtain ⟨d, hd, rfl⟩ := hc
    exact digitChar_isDigit (Nat.digits_lt_base (by norm_num) hd)

theorem decodeNat_encodeNat (n : Nat) : decodeNat (encodeNat n) = some n := by
  unfold decodeNat
  rw [if_pos ⟨encodeNat_ne_nil n, encodeNat_all_digits n⟩]
  congr 1
  unfold encodeNat
  by_cases hn : n = 0
  · subst hn; decide
  · rw [if_neg hn]
    unfold digitsVal
    rw [List.map_reverse, List.reverse_reverse, List.map_map]
    have hpt : ∀ d ∈ Nat.digits 10 n,
        (charDigit ∘ fun d => Char.ofNat (48 + d)) d = (fun d => d) d := by
      intro d hd
      exact charDigit_digitChar (Nat.digits_lt_base (by norm_num) hd)
    rw [List.map_congr_left hpt, List.map_id']
    exact Nat.ofDigits_digits 10 n

theorem decodeInt_encodeInt (n : Int) : decodeInt (encodeInt n) = some n := by
  by_cases hn : n < 0
  · unfold encodeInt
    rw [if_pos hn]
    show decodeInt ('-' :: encodeNat n.natAbs) = some n
    rw [decodeInt, if_pos rfl, decodeNat_encodeNat, Option.map_some']
    congr 1
    rw [Int.ofNat_eq_coe]
    omega
  · unfold encodeInt
    rw [if_neg hn]
    obtain ⟨c, rest, hcr⟩ : ∃ c rest, encodeNat n.natAbs = c :: rest := by
      cases h : encodeNat n.natAbs with
      | nil => exact absurd h (encodeNat_ne_nil _)
      | cons c rest => exact ⟨c, rest, rfl⟩
    have hcd : c.isDigit = true := by
      have hall := encodeNat_all_digits n.natAbs
      rw [hcr, List.all_cons, Bool.and_eq_true] at hall
      exact hall.1
    have hcne : c ≠ '-' := by
      intro h
      subst h
      exact absurd hcd (by decide)
    rw [hcr, decodeInt, if_neg hcne, ← hcr, decodeNat_encodeNat,
      Option.map_some']
    congr 1
    rw [Int.ofNat_eq_coe]
    omega

/-- **C7** — Re-parsing the exporter's delimited output recovers exactly
`view.length` data rows and exactly the `amount` values of the filtered
view it was serialized from; the empty view exports as the header row
alone. -/
theorem C7_export_roundtrip (view : List Record) :
    reparsedRowCount (toDelimited view) = view.length ∧
      reparsedAmounts (toDelimited view) =
        view.map (fun r => some r.amount) ∧
      toDelimited [] = [csvHeader] := by
  refine ⟨?_, ?_, rfl⟩
  · unfold reparsedRowCount toDelimited
    simp
  · unfold reparsedAmounts toDelimited
    simp only [List.drop_succ_cons, List.drop_zero, List.map_map]
    refine List.map_congr_left ?_
    intro r _
    show ((recordRow r)[2]?).bind decodeInt = some r.amount
    have h2 : (recordRow r)[2]? = some (encodeInt r.amount) := rfl
    rw [h2, Option.some_bind, decodeInt_encodeInt]

end Jarviz
